import Mathlib

/-!
Shallow embedding of `apps/desktop/src/lib/navigation/PullRequestSidebarEntry.svelte`.

The component reads a pull-request record and the ambient project, formats a
navigation URL, derives a `selected` flag from the current route path, and
forwards a prop set (plus an optional avatar list) to a generic sidebar-entry
view.  Optional string fields follow JavaScript semantics: `undefined` is
modelled as `none`, and the `||` operator and truthiness tests treat the empty
string like `undefined`.
-/

/-- The author fields the component reads off `pullRequest.author`;
both are optional strings in the TypeScript type. -/
structure Author where
  name : Option String
  gravatarUrl : Option String
  deriving Repr, DecidableEq

/-- The fields of the `PullRequest` record the component reads:
`number`, `title`, optional `author`, and `modifiedAt` (forwarded opaquely,
possibly absent). -/
structure PullRequest where
  number : Nat
  title : String
  author : Option Author
  modifiedAt : Option String
  deriving Repr, DecidableEq

/-- The ambient `Project` obtained from context; only `id` is read. -/
structure Project where
  id : String
  deriving Repr, DecidableEq

/-- JavaScript truthiness of a `string | undefined` value:
`undefined` and the empty string are falsy. -/
def truthyStr : Option String → Bool
  | none => false
  | some s => !s.isEmpty

/-- JavaScript `a || b` where `a : string | undefined` and `b` is a string:
returns `b` when `a` is `undefined` or empty, else `a`. -/
def jsOrStr (a : Option String) (b : String) : String :=
  match a with
  | none => b
  | some s => if s.isEmpty then b else s

/-- `formatPullRequestURL` builds the template literal
`/$\x7bproject.id\x7d/pull/$\x7bpullRequestNumber\x7d`. -/
def formatPullRequestURL (project : Project) (pullRequestNumber : Nat) : String :=
  "/" ++ project.id ++ "/pull/" ++ toString pullRequestNumber

/-- The `onMouseDown` handler, modelled by its effect trace: the list of URLs
passed to the `goto` navigation service, in call order.  The body is a single
call `goto(formatPullRequestURL(project, pullRequest.number))`. -/
def onMouseDown (project : Project) (pullRequest : PullRequest) : List String :=
  [formatPullRequestURL project pullRequest.number]

/-- The `selected` derivation: strict equality between the current route
pathname and the formatted URL. -/
def selected (pathname : String) (project : Project) (pullRequest : PullRequest) : Bool :=
  pathname == formatPullRequestURL project pullRequest.number

/-- The `lastCommitDetails` prop shape. -/
structure LastCommitDetails where
  authorName : String
  lastCommitAt : Option String
  deriving Repr, DecidableEq

/-- The `lastCommitDetails` prop:
`authorName` is `pullRequest.author?.name || 'Unknown'` and
`lastCommitAt` is `pullRequest.modifiedAt`. -/
def lastCommitDetails (pullRequest : PullRequest) : LastCommitDetails :=
  { authorName := jsOrStr (pullRequest.author.bind Author.name) "Unknown"
    lastCommitAt := pullRequest.modifiedAt }

/-- The `pullRequestDetails` prop shape. -/
structure PullRequestDetails where
  title : String
  deriving Repr, DecidableEq

/-- The `pullRequestDetails` prop: `pullRequest && \x7b title: pullRequest.title \x7d`;
`pullRequest` is a required record, hence always truthy, so the descriptor is
always built from the title. -/
def pullRequestDetails (pullRequest : PullRequest) : PullRequestDetails :=
  { title := pullRequest.title }

/-- One avatar handed to the avatar-group slot. -/
structure Avatar where
  srcUrl : String
  name : String
  deriving Repr, DecidableEq

/-- The avatar list supplied through the `authorAvatars` snippet: the snippet
renders the group only when `pullRequest.author?.gravatarUrl` is truthy, and
then supplies the single avatar
`\x7b srcUrl: pullRequest.author.gravatarUrl, name: pullRequest.author.name || 'unknown' \x7d`. -/
def authorAvatars (pullRequest : PullRequest) : List Avatar :=
  match pullRequest.author with
  | none => []
  | some author =>
    match author.gravatarUrl with
    | none => []
    | some url =>
      if url.isEmpty then []
      else [{ srcUrl := url, name := jsOrStr author.name "unknown" }]

/-- The prop set forwarded to the generic `SidebarEntry` view; the
`onMouseDown` handler prop is modelled by its effect trace. -/
structure SidebarEntryProps where
  title : String
  remotes : List String
  «local» : Bool
  applied : Bool
  lastCommitDetails : LastCommitDetails
  pullRequestDetails : PullRequestDetails
  onMouseDown : List String
  selected : Bool
  deriving Repr, DecidableEq

/-- The full prop set the component binds onto `SidebarEntry`. -/
def sidebarEntryProps (pathname : String) (project : Project) (pullRequest : PullRequest) :
    SidebarEntryProps :=
  { title := pullRequest.title
    remotes := []
    «local» := false
    applied := false
    lastCommitDetails := lastCommitDetails pullRequest
    pullRequestDetails := pullRequestDetails pullRequest
    onMouseDown := onMouseDown project pullRequest
    selected := selected pathname project pullRequest }

/-- Reading a possibly-`undefined` record with JavaScript semantics:
a field access on `undefined` throws a TypeError.  Used to model the
unguarded accesses inside the avatar snippet. -/
def jsGet {α : Type} (o : Option α) : Except String α :=
  match o with
  | none => Except.error "TypeError"
  | some a => Except.ok a

/-- Everything one evaluation of the component produces. -/
structure RenderOutput where
  url : String
  props : SidebarEntryProps
  avatars : List Avatar
  deriving Repr, DecidableEq

/-- One full evaluation of the component under JavaScript exception semantics:
guarded (`?.` / `||`) accesses never throw, while the avatar snippet's
unguarded `pullRequest.author.gravatarUrl` and `pullRequest.author.name`
accesses are reached only behind the snippet's truthiness test on
`pullRequest.author?.gravatarUrl`. -/
def renderComponent (pathname : String) (project : Project) (pullRequest : PullRequest) :
    Except String RenderOutput := do
  let url := formatPullRequestURL project pullRequest.number
  let props := sidebarEntryProps pathname project pullRequest
  let avatars ←
    if truthyStr (pullRequest.author.bind Author.gravatarUrl) then do
      let author ← jsGet pullRequest.author
      pure [{ srcUrl := author.gravatarUrl.getD "",
              name := jsOrStr author.name "unknown" }]
    else
      pure ([] : List Avatar)
  pure { url := url, props := props, avatars := avatars }

/-- The inputs of one evaluation, threaded as the state a JavaScript
evaluation could in principle mutate. -/
structure ComponentInputs where
  pathname : String
  project : Project
  pullRequest : PullRequest
  deriving Repr, DecidableEq

/-- One evaluation of the component in state-passing form: the source contains
no assignment to the pull-request record or the project, so every step reads
the state and passes it on. -/
def componentStep (st : ComponentInputs) :
    (String × SidebarEntryProps × List Avatar) × ComponentInputs :=
  ((formatPullRequestURL st.project st.pullRequest.number,
    sidebarEntryProps st.pathname st.project st.pullRequest,
    authorAvatars st.pullRequest), st)

/-- C1: for every project and pull request, the navigation URL computed by
`formatPullRequestURL` is exactly `/` ++ project id ++ `/pull/` ++ the decimal
rendering of the pull-request number, in that segment order. -/
theorem formatPullRequestURL_exact (project : Project) (pullRequest : PullRequest) :
    formatPullRequestURL project pullRequest.number =
      "/" ++ project.id ++ "/pull/" ++ toString pullRequest.number := rfl

/-- C2: the derived `selected` flag is true exactly when the current route
pathname equals the URL computed by `formatPullRequestURL` for this project
and pull-request number, by plain string equality. -/
theorem selected_iff_path_eq_url (pathname : String) (project : Project)
    (pullRequest : PullRequest) :
    selected pathname project pullRequest = true ↔
      pathname = formatPullRequestURL project pullRequest.number := by
  simp [selected]

/-- C3 counterexample: a pull request whose author has `gravatarUrl` present
but equal to the empty string gets zero avatars, refuting "if
`author.gravatarUrl` is present, exactly one avatar is supplied". -/
theorem authorAvatars_present_empty_counterexample :
    (PullRequest.author
        { number := 1, title := "t",
          author := some { name := some "Alice", gravatarUrl := some "" },
          modifiedAt := none }).bind Author.gravatarUrl = some "" ∧
    authorAvatars
        { number := 1, title := "t",
          author := some { name := some "Alice", gravatarUrl := some "" },
          modifiedAt := none } = [] := by
  exact ⟨rfl, rfl⟩

/-- C3 amended: if `author.gravatarUrl` is present and non-empty, exactly one
avatar is supplied, with `srcUrl` equal to the gravatar URL and `name` equal
to `author.name` when that is present and non-empty and to the lowercase
literal "unknown" otherwise; if `author?.gravatarUrl` is absent or the empty
string, zero avatars are supplied. -/
theorem authorAvatars_cases (pullRequest : PullRequest) :
    (∀ author url, pullRequest.author = some author →
        author.gravatarUrl = some url → url ≠ "" →
        authorAvatars pullRequest =
          [{ srcUrl := url,
             name := match author.name with
                     | some n => if n = "" then "unknown" else n
                     | none => "unknown" }]) ∧
    (pullRequest.author.bind Author.gravatarUrl = none ∨
        pullRequest.author.bind Author.gravatarUrl = some "" →
        authorAvatars pullRequest = []) := by
  constructor
  · intro author url hA hU hne
    cases hN : author.name with
    | none =>
      simp [authorAvatars, hA, hU, jsOrStr, String.isEmpty_iff, hne, hN]
    | some n =>
      by_cases hn : n = "" <;>
        simp [authorAvatars, hA, hU, jsOrStr, String.isEmpty_iff, hne, hN, hn]
  · intro h
    cases hA : pullRequest.author with
    | none => simp [authorAvatars, hA]
    | some author =>
      rw [hA] at h
      simp only [Option.some_bind] at h
      cases hU : author.gravatarUrl with
      | none => simp [authorAvatars, hA, hU]
      | some url =>
        rw [hU] at h
        rcases h with h | h
        · exact Option.noConfusion h
        · have hu : url = "" := by simpa using h
          subst hu
          simp [authorAvatars, hA, hU]
          decide

/-- C3 witness: on a concrete pull request with a non-empty gravatar URL the
amended statement produces exactly the one expected avatar, and on one with an
empty gravatar URL it produces none. -/
theorem authorAvatars_cases_witness :
    authorAvatars
        { number := 2, title := "t",
          author := some { name := some "Alice", gravatarUrl := some "http://x/a.png" },
          modifiedAt := none } =
      [{ srcUrl := "http://x/a.png", name := "Alice" }] ∧
    authorAvatars
        { number := 3, title := "t",
          author := some { name := some "Bob", gravatarUrl := some "" },
          modifiedAt := none } = [] := by
  constructor
  · have h := (authorAvatars_cases
      { number := 2, title := "t",
        author := some { name := some "Alice", gravatarUrl := some "http://x/a.png" },
        modifiedAt := none }).1
      { name := some "Alice", gravatarUrl := some "http://x/a.png" }
      "http://x/a.png" rfl rfl (by decide)
    simpa using h
  · exact (authorAvatars_cases
      { number := 3, title := "t",
        author := some { name := some "Bob", gravatarUrl := some "" },
        modifiedAt := none }).2 (Or.inr rfl)

/-- C4: when `author` is undefined, or `author` is defined but `author.name`
is undefined, the last-commit author label is exactly the capitalized literal
"Unknown". -/
theorem lastCommitDetails_authorName_unknown (pullRequest : PullRequest)
    (h : pullRequest.author = none ∨
         ∃ a, pullRequest.author = some a ∧ a.name = none) :
    (lastCommitDetails pullRequest).authorName = "Unknown" := by
  rcases h with h | ⟨a, hA, hN⟩
  · simp [lastCommitDetails, h, jsOrStr]
  · simp [lastCommitDetails, hA, hN, jsOrStr]

/-- C4 witness: a concrete pull request with no author gets the label
"Unknown", and so does one whose author has no name. -/
theorem lastCommitDetails_authorName_unknown_witness :
    (lastCommitDetails
        { number := 7, title := "No author", author := none,
          modifiedAt := some "T2" }).authorName = "Unknown" ∧
    (lastCommitDetails
        { number := 8, title := "Anon", author := some { name := none, gravatarUrl := none },
          modifiedAt := none }).authorName = "Unknown" := by
  constructor
  · exact lastCommitDetails_authorName_unknown _ (Or.inl rfl)
  · exact lastCommitDetails_authorName_unknown _ (Or.inr ⟨_, rfl, rfl⟩)

/-- C5: on primary pointer-down the handler's effect trace is exactly one
navigation call, to the URL built from the ambient project id and the
pull-request number. -/
theorem onMouseDown_single_navigation (project : Project) (pullRequest : PullRequest) :
    onMouseDown project pullRequest =
      ["/" ++ project.id ++ "/pull/" ++ toString pullRequest.number] := rfl

/-- C6: the prop set forwarded to the generic entry view always carries the
pull request's title, an empty remotes list, `local = false`,
`applied = false`, `lastCommitAt` equal to the pull request's `modifiedAt`,
and a pull-request descriptor holding exactly the title. -/
theorem sidebarEntryProps_fixed_fields (pathname : String) (project : Project)
    (pullRequest : PullRequest) :
    (sidebarEntryProps pathname project pullRequest).title = pullRequest.title ∧
    (sidebarEntryProps pathname project pullRequest).remotes = [] ∧
    (sidebarEntryProps pathname project pullRequest).«local» = false ∧
    (sidebarEntryProps pathname project pullRequest).applied = false ∧
    (sidebarEntryProps pathname project pullRequest).lastCommitDetails.lastCommitAt =
      pullRequest.modifiedAt ∧
    (sidebarEntryProps pathname project pullRequest).pullRequestDetails =
      { title := pullRequest.title } := by
  exact ⟨rfl, rfl, rfl, rfl, rfl, rfl⟩

/-- C7: evaluating the whole component under JavaScript exception semantics
never throws: every optional-field access is either optional-chained or
reached only behind the truthiness guard, so the error branch is
unreachable. -/
theorem renderComponent_never_throws (pathname : String) (project : Project)
    (pullRequest : PullRequest) :
    (renderComponent pathname project pullRequest).isOk = true := by
  cases hA : pullRequest.author with
  | none =>
    unfold renderComponent
    rw [hA]
    rfl
  | some author =>
    cases hU : author.gravatarUrl with
    | none =>
      have hb : pullRequest.author.bind Author.gravatarUrl = none := by
        rw [hA]; exact hU
      unfold renderComponent
      rw [hb]
      rfl
    | some url =>
      have hb : pullRequest.author.bind Author.gravatarUrl = some url := by
        rw [hA]; exact hU
      unfold renderComponent
      rw [hb, hA]
      by_cases he : url.isEmpty = true
      · simp only [truthyStr, he]
        rfl
      · simp only [Bool.not_eq_true] at he
        simp only [truthyStr, he]
        rfl

/-- C8: one evaluation of the component leaves its inputs untouched: the
state threaded through `componentStep` — route path, ambient project and
pull-request record — comes back unchanged. -/
theorem componentStep_frame (st : ComponentInputs) :
    (componentStep st).2 = st := rfl

/-- C9: the fallbacks are falsy-coalescing: an empty author name yields the
label "Unknown" and (when an avatar is shown) the avatar name "unknown", and
an empty gravatar URL yields zero avatars, exactly as when it is absent. -/
theorem fallbacks_falsy_coalescing (pullRequest : PullRequest) (author : Author)
    (hA : pullRequest.author = some author) :
    (author.name = some "" → (lastCommitDetails pullRequest).authorName = "Unknown") ∧
    (∀ url, author.name = some "" → author.gravatarUrl = some url → url ≠ "" →
        authorAvatars pullRequest = [{ srcUrl := url, name := "unknown" }]) ∧
    (author.gravatarUrl = some "" → authorAvatars pullRequest = []) := by
  refine ⟨?_, ?_, ?_⟩
  · intro hN
    simp [lastCommitDetails, hA, hN, jsOrStr]
    decide
  · intro url hN hU hne
    simp [authorAvatars, hA, hU, jsOrStr, hN, String.isEmpty_iff, hne]
  · intro hU
    simp [authorAvatars, hA, hU]
    decide

/-- C9 witness: a concrete author with empty name and non-empty gravatar URL
yields the label "Unknown" and the avatar name "unknown", and a concrete
author with empty gravatar URL yields zero avatars. -/
theorem fallbacks_falsy_coalescing_witness :
    (lastCommitDetails
        { number := 9, title := "t",
          author := some { name := some "", gravatarUrl := some "http://x/a.png" },
          modifiedAt := none }).authorName = "Unknown" ∧
    authorAvatars
        { number := 9, title := "t",
          author := some { name := some "", gravatarUrl := some "http://x/a.png" },
          modifiedAt := none } = [{ srcUrl := "http://x/a.png", name := "unknown" }] ∧
    authorAvatars
        { number := 10, title := "t",
          author := some { name := some "Bob", gravatarUrl := some "" },
          modifiedAt := none } = [] := by
  refine ⟨?_, ?_, ?_⟩
  · exact (fallbacks_falsy_coalescing
      { number := 9, title := "t",
        author := some { name := some "", gravatarUrl := some "http://x/a.png" },
        modifiedAt := none }
      { name := some "", gravatarUrl := some "http://x/a.png" } rfl).1 rfl
  · exact (fallbacks_falsy_coalescing
      { number := 9, title := "t",
        author := some { name := some "", gravatarUrl := some "http://x/a.png" },
        modifiedAt := none }
      { name := some "", gravatarUrl := some "http://x/a.png" } rfl).2.1
      "http://x/a.png" rfl rfl (by decide)
  · exact (fallbacks_falsy_coalescing
      { number := 10, title := "t",
        author := some { name := some "Bob", gravatarUrl := some "" },
        modifiedAt := none }
      { name := some "Bob", gravatarUrl := some "" } rfl).2.2 rfl

/-- C10: the component is deterministic: two evaluations with the same route
path, the same ambient project id and the same pull-request record produce
the same full output (URL, props, selected flag and avatar list), and nothing
else influences the result. -/
theorem renderComponent_deterministic
    (path1 path2 : String) (proj1 proj2 : Project) (pr1 pr2 : PullRequest)
    (hpath : path1 = path2) (hid : proj1.id = proj2.id) (hpr : pr1 = pr2) :
    renderComponent path1 proj1 pr1 = renderComponent path2 proj2 pr2 := by
  cases proj1
  cases proj2
  simp only at hid
  subst hpath hid hpr
  rfl

/-- C10 witness: determinism instantiated at a concrete input. -/
theorem renderComponent_deterministic_witness :
    renderComponent "/p/pull/1" { id := "p" }
        { number := 1, title := "t", author := none, modifiedAt := none } =
      renderComponent "/p/pull/1" { id := "p" }
        { number := 1, title := "t", author := none, modifiedAt := none } := by
  exact renderComponent_deterministic _ _ _ _ _ _ rfl rfl rfl
